import Mathlib

/-!
Verification of the AutoInsight Insight Synthesis & Report Rendering
Pipeline: a shallow embedding of `app/services/llm_service.py` and
`app/services/report_generator.py`, with theorems checking the
natural-language specification against this embedding.
-/

set_option maxRecDepth 4000

namespace AutoInsight

/-- Modelled from the spec: the `LLMInsight` record of `app.models.schemas`
(the schemas module is not among the sources): one named narrative section
with free-text content and a confidence label. -/
structure LLMInsight where
  sectionName : String
  content : String
  confidence : String
deriving DecidableEq

/-- Modelled from the spec: the `VisualizationData` record of
`app.models.schemas` (not among the sources): a descriptor of an
externally rendered visualization file.  `vizType` is `"png"` for raster
images and `"html"` for interactive dashboards. -/
structure VisualizationData where
  name : String
  description : String
  path : String
  vizType : String
deriving DecidableEq

/-- A JSON value as produced by `json.loads` on the backend response text.
Object member values are modelled as strings: that is the shape the prompt
requests and the only shape the downstream `LLMInsight.content` schema
accepts; the association list models the parsed dict. -/
inductive JValue where
  | jnull
  | jbool (b : Bool)
  | jnum (q : Rat)
  | jstr (s : String)
  | jarr (elems : List JValue)
  | jobj (fields : List (String × String))

/-- Python `dict.get(key, "")` on the parsed JSON object. -/
def jsonGetD (fields : List (String × String)) (key : String) : String :=
  match fields.find? (fun kv => kv.1 == key) with
  | some kv => kv.2
  | none => ""

/-- The five JSON keys requested by the prompt, in the order the strict
parse reads them (`llm_service.py` lines 165-171). -/
def insightKeys : List String :=
  ["executive_summary", "data_quality", "patterns", "recommendations", "technical_notes"]

/-- The strict-parse mapping of `llm_service.py` lines 165-171 and 223-229:
the five keys of the parsed JSON object become five `LLMInsight` records
with fixed sections and confidence levels; a missing key yields empty
content via `dict.get(key, "")`. -/
def strictParseInsights (fields : List (String × String)) : List LLMInsight :=
  [⟨"Executive Summary", jsonGetD fields "executive_summary", "high"⟩,
   ⟨"Data Quality Assessment", jsonGetD fields "data_quality", "high"⟩,
   ⟨"Key Patterns & Trends", jsonGetD fields "patterns", "medium"⟩,
   ⟨"Actionable Recommendations", jsonGetD fields "recommendations", "high"⟩,
   ⟨"Technical Notes", jsonGetD fields "technical_notes", "medium"⟩]

/-! ### The fallback parser (`_fallback_parse_insights`, lines 238-268)

Python string primitives are modelled on `List Char`:
`str.split('\n')`, `str.strip()`, `str.upper()` (ASCII), substring `in`,
and `str.replace(' ', '_')`. -/

/-- Python `str.split('\n')`, auxiliary: returns (current segment, later
segments). -/
def splitNlAux : List Char → List Char × List (List Char)
  | [] => ([], [])
  | c :: rest =>
    let p := splitNlAux rest
    if c = '\n' then ([], p.1 :: p.2) else (c :: p.1, p.2)

/-- Python `str.split('\n')` on the character list of the text. -/
def splitNl (xs : List Char) : List (List Char) :=
  (splitNlAux xs).1 :: (splitNlAux xs).2

/-- Python `str.strip()` (whitespace from both ends; ASCII whitespace). -/
def pyStrip (xs : List Char) : List Char :=
  ((xs.dropWhile Char.isWhitespace).reverse.dropWhile Char.isWhitespace).reverse

/-- Python `str.upper()` (ASCII case mapping). -/
def pyUpper (xs : List Char) : List Char := xs.map Char.toUpper

/-- Python substring test `needle in hay`: the needle is a prefix of some
suffix of the haystack (the empty needle is contained in everything). -/
def pyInStr (needle : List Char) : List Char → Bool
  | [] => needle.isEmpty
  | c :: rest => needle.isPrefixOf (c :: rest) || pyInStr needle rest

/-- The keys of the `sections` dict of `_fallback_parse_insights`
(lines 240-246), in insertion order. -/
def sectionNames : List String :=
  ["Executive Summary", "Data Quality Assessment", "Key Patterns & Trends",
   "Actionable Recommendations", "Technical Notes"]

/-- Python `section.replace(' ', '_')`. -/
def underscoreName (s : String) : String :=
  String.mk (s.data.map (fun c => if c = ' ' then '_' else c))

/-- Line 256: a stripped line is treated as a header for `sec` when it
contains, case-insensitively, the display name or its underscore form. -/
def headerMatch (sec : String) (line : List Char) : Bool :=
  pyInStr (pyUpper sec.data) (pyUpper line) ||
  pyInStr (pyUpper (underscoreName sec).data) (pyUpper line)

/-- Lines 255-258: the first section (in dict order) whose header matches
the line, if any. -/
def findHeader (line : List Char) : Option String :=
  sectionNames.find? (fun s => headerMatch s line)

/-- Line 261: `any(s.upper() in line.upper() for s in sections.keys())` —
note this guard checks only the display names, not the underscore forms. -/
def anyDisplayName (line : List Char) : Bool :=
  sectionNames.any (fun s => pyInStr (pyUpper s.data) (pyUpper line))

/-- The loop state of `_fallback_parse_insights`: `current_section` and the
per-section content accumulators (the `sections` dict values). -/
structure FallbackState where
  currentSection : Option String
  acc : String → List Char

/-- The body of the `for line in lines` loop (lines 251-262). -/
def stepLine (st : FallbackState) (rawLine : List Char) : FallbackState :=
  let line := pyStrip rawLine
  let cur : Option String :=
    match findHeader line with
    | some s => some s
    | none => st.currentSection
  let acc : String → List Char :=
    match cur with
    | some c =>
      if !line.isEmpty && !anyDisplayName line then
        fun s => if s = c then st.acc s ++ line ++ [' '] else st.acc s
      else st.acc
    | none => st.acc
  ⟨cur, acc⟩

/-- The function `_fallback_parse_insights` (lines 238-268): line-scanning recovery
parse; sections whose stripped accumulated content is empty are dropped,
all emitted insights have confidence `"medium"`. -/
def fallback_parse_insights (text : String) : List LLMInsight :=
  let lines := splitNl text.data
  let st := lines.foldl stepLine ⟨none, fun _ => []⟩
  sectionNames.filterMap (fun s =>
    let c := pyStrip (st.acc s)
    if c.isEmpty then none else some ⟨s, String.mk c, "medium"⟩)

/-- Errors that propagate out of `generate_insights` to the caller. -/
inductive PipelineError where
  | backendError
deriving DecidableEq

/-- Response handling of `_generate_with_claude` (lines 160-181).  The
network call is external; its result is the pair of the raw response text
and the outcome of `json.loads` on it (`none` = `json.JSONDecodeError`).
A decode error triggers the fallback parse (lines 176-178); a parsed
non-object makes `insights_data.get` raise `AttributeError`, which the
generic handler re-raises (lines 179-181). -/
def generate_with_claude (responseText : String) (parsed : Option JValue) :
    Except PipelineError (List LLMInsight) :=
  match parsed with
  | none => .ok (fallback_parse_insights responseText)
  | some (JValue.jobj fields) => .ok (strictParseInsights fields)
  | some _ => .error .backendError

/-- Response handling of `_generate_with_openai` (lines 220-236).  There is
no `json.JSONDecodeError` handler: any parse failure is caught by the
generic `except Exception` and re-raised (lines 234-236). -/
def generate_with_openai (parsed : Option JValue) :
    Except PipelineError (List LLMInsight) :=
  match parsed with
  | some (JValue.jobj fields) => .ok (strictParseInsights fields)
  | _ => .error .backendError

/-- The provider dispatch of `generate_insights` (lines 55-58): anthropic
goes to the Claude path, anything else to the OpenAI path. -/
def generate_insights (provider : String) (responseText : String)
    (parsed : Option JValue) : Except PipelineError (List LLMInsight) :=
  if provider == "anthropic" then generate_with_claude responseText parsed
  else generate_with_openai parsed

/-! ### Numeric formatting

Python format specifiers used by the sources: `{:,}` (thousands grouping of
an integer) and `%.Nf` / `{:.Nf}` (fixed-point with round-half-to-even).
Real numbers are modelled as rationals; the sign of a negative zero is not
modelled (no claim depends on it). -/

/-- Group a reversed digit list in threes (least significant first). -/
def chunk3 : List Char → List (List Char)
  | [] => []
  | [a] => [[a]]
  | [a, b] => [[a, b]]
  | a :: b :: c :: rest => [a, b, c] :: chunk3 rest

/-- Python `f"{n:,}"` for an int: thousands separated by commas. -/
def formatThousands (n : Int) : String :=
  let ds := (toString n.natAbs).data
  let grouped := ((chunk3 ds.reverse).map List.reverse).reverse
  let s := String.mk (List.intercalate [','] grouped)
  if n < 0 then "-" ++ s else s

/-- Round to the nearest integer, ties to even. -/
def roundHalfEven (q : Rat) : Int :=
  let fl := q.floor
  let frac := q - (fl : Rat)
  if frac < 1 / 2 then fl
  else if 1 / 2 < frac then fl + 1
  else if fl % 2 = 0 then fl else fl + 1

/-- Python fixed-point formatting `%.{prec}f` of a rational. -/
def formatFixed (prec : Nat) (q : Rat) : String :=
  let scaled := roundHalfEven (q * (10 : Rat) ^ prec)
  let sign := if scaled < 0 then "-" else ""
  let m := scaled.natAbs
  let ip := m / 10 ^ prec
  let fp := m % 10 ^ prec
  if prec = 0 then sign ++ toString ip
  else
    sign ++ toString ip ++ "." ++
      String.mk (List.replicate (prec - (toString fp).length) '0') ++ toString fp

/-! ### The analysis bundle (inputs produced by the excluded analysis layer)

Shapes follow the dict accesses of `_prepare_analysis_context`
(`llm_service.py` lines 60-123) and the two renderers. -/

/-- The `dataset_info` dict: keys `rows`, `columns`, `memory_usage`. -/
structure DatasetInfo where
  rows : Int
  columns : Int
  memory_usage : String
deriving DecidableEq

/-- The numeric-column entry of a `stats` dict: keys `mean`, `std`, `min`,
`max`, `skewness`. -/
structure NumericStats where
  mean : Rat
  std : Rat
  min : Rat
  max : Rat
  skewness : Rat
deriving DecidableEq

/-- The `stats` dict of a column: the code branches on `'mean' in stats`,
then `'mode' in stats`; a stats dict with neither key emits no detail
lines (`other`). -/
inductive ColStats where
  | numeric (s : NumericStats)
  | categorical (mode : String)
  | other
deriving DecidableEq

/-- One `column_stats` entry: keys `name`, `dtype`, `null_percentage`,
`unique_count`, and an optional `stats` dict (`col_stat.get('stats')` is
falsy for a missing or empty dict, modelled as `none`). -/
structure ColumnStat where
  name : String
  dtype : String
  null_percentage : Rat
  unique_count : Int
  stats : Option ColStats
deriving DecidableEq

/-- One `high_correlations` entry: keys `column1`, `column2`,
`correlation`, `strength`. -/
structure Correlation where
  column1 : String
  column2 : String
  correlation : Rat
  strength : String
deriving DecidableEq

/-- The `correlations` dict: key `high_correlations`. -/
structure Correlations where
  high_correlations : List Correlation
deriving DecidableEq

/-- One `outliers` entry: keys `column`, `outlier_count`,
`outlier_percentage`. -/
structure OutlierReport where
  column : String
  outlier_count : Int
  outlier_percentage : Rat
deriving DecidableEq

/-- The `clustering` dict: keys `n_clusters`, `silhouette_score`,
`cluster_sizes` (dict, modelled as an association list). -/
structure Clustering where
  n_clusters : Int
  silhouette_score : Rat
  cluster_sizes : List (String × Int)
deriving DecidableEq

/-- The `data_quality` dict: keys `total_rows`, `total_columns`,
`missing_cells`, `completeness_percentage`, `duplicate_rows`,
`memory_usage_mb`. -/
structure DataQuality where
  total_rows : Int
  total_columns : Int
  missing_cells : Int
  completeness_percentage : Rat
  duplicate_rows : Int
  memory_usage_mb : Rat
deriving DecidableEq

/-- Python `str(...)` of a string-keyed int-valued dict, as used for
`cluster_sizes` at line 121. -/
def pyDictRepr (kvs : List (String × Int)) : String :=
  "\x7b" ++
    String.intercalate ", "
      (kvs.map (fun kv => "\x27" ++ kv.1 ++ "\x27: " ++ toString kv.2)) ++
  "\x7d"

/-! ### `_prepare_analysis_context` (`llm_service.py` lines 60-123) -/

/-- The digest lines emitted for one column stat (loop body, lines
83-95). -/
def columnStatLines (c : ColumnStat) : List String :=
  ["\n### " ++ c.name ++ " (" ++ c.dtype ++ ")",
   "- Missing: " ++ formatFixed 1 c.null_percentage ++ "%",
   "- Unique values: " ++ toString c.unique_count] ++
  (match c.stats with
   | some (ColStats.numeric s) =>
     ["- Mean: " ++ formatFixed 2 s.mean ++ ", Std: " ++ formatFixed 2 s.std,
      "- Range: [" ++ formatFixed 2 s.min ++ ", " ++ formatFixed 2 s.max ++ "]",
      "- Skewness: " ++ formatFixed 2 s.skewness]
   | some (ColStats.categorical m) => ["- Mode: " ++ m]
   | some ColStats.other => []
   | none => [])

/-- The `context_parts` list of `_prepare_analysis_context`
(lines 71-121). -/
def contextParts (dataset_info : DatasetInfo) (column_stats : List ColumnStat)
    (correlations : Option Correlations) (outliers : List OutlierReport)
    (clustering : Option Clustering) (data_quality : DataQuality) :
    List String :=
  ["# Dataset Analysis Summary\n",
   "## Dataset Overview",
   "- Rows: " ++ formatThousands dataset_info.rows,
   "- Columns: " ++ toString dataset_info.columns,
   "- Total Size: " ++ dataset_info.memory_usage,
   "- Data Completeness: " ++ formatFixed 1 data_quality.completeness_percentage ++ "%",
   "- Duplicate Rows: " ++ toString data_quality.duplicate_rows ++ "\n"] ++
  ["\n## Key Column Statistics"] ++
  (column_stats.take 10).flatMap columnStatLines ++
  (match correlations with
   | some corrs =>
     if corrs.high_correlations.isEmpty then []
     else
       ["\n## High Correlations Found"] ++
       (corrs.high_correlations.take 5).map (fun corr =>
         "- " ++ corr.column1 ++ " â†” " ++ corr.column2 ++ ": " ++
         formatFixed 3 corr.correlation ++ " (" ++ corr.strength ++ ")")
   | none => []) ++
  (if outliers.isEmpty then []
   else
     ["\n## Outlier Detection"] ++
     (outliers.take 5).map (fun o =>
       "- " ++ o.column ++ ": " ++ toString o.outlier_count ++ " outliers (" ++
       formatFixed 1 o.outlier_percentage ++ "%)")) ++
  (match clustering with
   | some cl =>
     ["\n## Clustering Analysis",
      "- Number of clusters: " ++ toString cl.n_clusters,
      "- Silhouette score: " ++ formatFixed 3 cl.silhouette_score,
      "- Cluster sizes: " ++ pyDictRepr cl.cluster_sizes]
   | none => [])

/-- The digest lines preceding the per-column statistics (lines 71-82). -/
def contextOverview (dataset_info : DatasetInfo) (data_quality : DataQuality) :
    List String :=
  ["# Dataset Analysis Summary\n",
   "## Dataset Overview",
   "- Rows: " ++ formatThousands dataset_info.rows,
   "- Columns: " ++ toString dataset_info.columns,
   "- Total Size: " ++ dataset_info.memory_usage,
   "- Data Completeness: " ++ formatFixed 1 data_quality.completeness_percentage ++ "%",
   "- Duplicate Rows: " ++ toString data_quality.duplicate_rows ++ "\n",
   "\n## Key Column Statistics"]

/-- The digest lines following the per-column statistics (lines 97-121). -/
def contextTail (correlations : Option Correlations)
    (outliers : List OutlierReport) (clustering : Option Clustering) :
    List String :=
  (match correlations with
   | some corrs =>
     if corrs.high_correlations.isEmpty then []
     else
       ["\n## High Correlations Found"] ++
       (corrs.high_correlations.take 5).map (fun corr =>
         "- " ++ corr.column1 ++ " â†” " ++ corr.column2 ++ ": " ++
         formatFixed 3 corr.correlation ++ " (" ++ corr.strength ++ ")")
   | none => []) ++
  (if outliers.isEmpty then []
   else
     ["\n## Outlier Detection"] ++
     (outliers.take 5).map (fun o =>
       "- " ++ o.column ++ ": " ++ toString o.outlier_count ++ " outliers (" ++
       formatFixed 1 o.outlier_percentage ++ "%)")) ++
  (match clustering with
   | some cl =>
     ["\n## Clustering Analysis",
      "- Number of clusters: " ++ toString cl.n_clusters,
      "- Silhouette score: " ++ formatFixed 3 cl.silhouette_score,
      "- Cluster sizes: " ++ pyDictRepr cl.cluster_sizes]
   | none => [])

/-- The function `_prepare_analysis_context` (lines 60-123): `"\n".join(context_parts)`. -/
def prepare_analysis_context (dataset_info : DatasetInfo)
    (column_stats : List ColumnStat) (correlations : Option Correlations)
    (outliers : List OutlierReport) (clustering : Option Clustering)
    (data_quality : DataQuality) : String :=
  String.intercalate "\n"
    (contextParts dataset_info column_stats correlations outliers clustering data_quality)

/-! ### `generate_pdf_report` (`report_generator.py` lines 31-198)

The reportlab flowables appended to `elements` are modelled as
`PdfElement`s; page geometry, colors and fonts carry no content and are
not modelled.  `datetime.now()` is external input (`now`), and whether a
visualization image file can be loaded is external input (`loadable`). -/

/-- The paragraph styles the code distinguishes. -/
inductive PdfStyle where
  | customTitle
  | heading2
  | customHeading
  | customBody
  | heading3
deriving DecidableEq

/-- One reportlab point; `inch` is 72 points. -/
def inch : Rat := 72

/-- A reportlab flowable appended to `elements`. -/
inductive PdfElement where
  | spacer (w h : Rat)
  | paragraph (text : String) (style : PdfStyle)
  | table (rows : List (List String))
  | pageBreak
  | image (path : String) (w h : Rat)
deriving DecidableEq

/-- Python `str.split(sep)` for a non-empty separator: split on
non-overlapping occurrences, scanning left to right. -/
def splitSep (pat : List Char) (xs : List Char) : List (List Char) :=
  if h : pat = [] then [xs]
  else
    match xs with
    | [] => [[]]
    | x :: rest =>
      if pat.isPrefixOf (x :: rest) then
        [] :: splitSep pat ((x :: rest).drop pat.length)
      else
        match splitSep pat rest with
        | [] => [[x]]
        | l :: ls => (x :: l) :: ls
termination_by xs.length
decreasing_by
  · simp only [List.length_drop, List.length_cons]
    have : 1 ≤ pat.length := by
      cases pat with
      | nil => exact absurd rfl h
      | cons a t => simp
    omega
  · simp

/-- Lines 115-118 and 151-154: split insight content on blank lines
(`content.split('\n\n')`) and emit each non-blank paragraph, stripped, as
a justified body paragraph. -/
def bodyParagraphs (content : String) : List PdfElement :=
  (splitSep "\n\n".data content.data).filterMap (fun para =>
    if (pyStrip para).isEmpty then none
    else some (PdfElement.paragraph (String.mk (pyStrip para)) PdfStyle.customBody))

/-- Lines 111-119: the fixed "Executive Summary" heading followed by the
paragraphs of the first insight whose section is `Executive Summary`
(the loop breaks after the first match). -/
def pdfExecSummaryBlock (insights : List LLMInsight) : List PdfElement :=
  PdfElement.paragraph "Executive Summary" PdfStyle.customHeading ::
  (match insights.find? (fun i => i.sectionName == "Executive Summary") with
   | some i => bodyParagraphs i.content
   | none => [])

/-- Lines 147-155: every insight other than `Executive Summary`, in list
order, as a heading plus body paragraphs plus a trailing spacer. -/
def pdfOtherInsightBlocks (insights : List LLMInsight) : List PdfElement :=
  insights.flatMap (fun i =>
    if i.sectionName == "Executive Summary" then []
    else
      PdfElement.paragraph i.sectionName PdfStyle.customHeading ::
      bodyParagraphs i.content ++ [PdfElement.spacer 1 (2 / 10 * inch)])

/-- The `quality_data` table of lines 124-132 (header row included). -/
def pdfQualityRows (data_quality : DataQuality) : List (List String) :=
  [["Metric", "Value"],
   ["Total Rows", formatThousands data_quality.total_rows],
   ["Total Columns", toString data_quality.total_columns],
   ["Missing Cells", formatThousands data_quality.missing_cells],
   ["Completeness", formatFixed 2 data_quality.completeness_percentage ++ "%"],
   ["Duplicate Rows", formatThousands data_quality.duplicate_rows],
   ["Memory Usage", formatFixed 2 data_quality.memory_usage_mb ++ " MB"]]

/-- Lines 160-173: per-column summary blocks for the first 10 columns. -/
def pdfColumnStatBlocks (column_stats : List ColumnStat) : List PdfElement :=
  (column_stats.take 10).flatMap (fun c =>
    [PdfElement.paragraph ("<b>" ++ c.name ++ "</b> (" ++ c.dtype ++ ")") PdfStyle.heading3,
     PdfElement.paragraph
       ("Missing: " ++ formatFixed 1 c.null_percentage ++ "% | Unique: " ++
        formatThousands c.unique_count) PdfStyle.customBody] ++
    (match c.stats with
     | some (ColStats.numeric s) =>
       [PdfElement.paragraph
         ("Mean: " ++ formatFixed 2 s.mean ++ ", Std: " ++ formatFixed 2 s.std ++
          ", Range: [" ++ formatFixed 2 s.min ++ ", " ++ formatFixed 2 s.max ++ "]")
         PdfStyle.customBody]
     | _ => []) ++
    [PdfElement.spacer 1 (1 / 10 * inch)])

/-- Lines 179-189: the per-visualization block of the `Visual Analysis`
section.  reportlab's `Image` defaults to `lazy=1`: for a non-JPEG path
the constructor at line 185 only records the filename and does not open
the file, so an unloadable image raises nothing inside the
`try`/`except` — all four flowables are appended and the line-189 warning
handler never fires for a load failure.  (The failure surfaces later,
inside `doc.build`; see `generate_pdf_report`.) -/
def pdfVizBlock (v : VisualizationData) : List PdfElement :=
  if v.vizType == "png" then
    [PdfElement.paragraph v.name PdfStyle.heading3,
     PdfElement.paragraph v.description PdfStyle.customBody,
     PdfElement.image v.path (65 / 10 * inch) (45 / 10 * inch),
     PdfElement.spacer 1 (2 / 10 * inch)]
  else []

/-- The full `elements` list assembled by `generate_pdf_report`
(lines 88-190). -/
def generatePdfElements (analysisId now : String) (dataset_info : DatasetInfo)
    (column_stats : List ColumnStat) (_correlations : Option Correlations)
    (_outliers : List OutlierReport) (data_quality : DataQuality)
    (insights : List LLMInsight) (visualizations : List VisualizationData) :
    List PdfElement :=
  [PdfElement.spacer 1 (2 * inch),
   PdfElement.paragraph "AutoInsight" PdfStyle.customTitle,
   PdfElement.paragraph "Automated Data Analysis Report" PdfStyle.heading2,
   PdfElement.spacer 1 (1 / 2 * inch),
   PdfElement.table
     [["Report ID:", analysisId],
      ["Generated:", now],
      ["Dataset Size:",
       formatThousands dataset_info.rows ++ " rows × " ++
       toString dataset_info.columns ++ " columns"],
      ["Data Quality:",
       formatFixed 1 data_quality.completeness_percentage ++ "% complete"]],
   PdfElement.pageBreak] ++
  pdfExecSummaryBlock insights ++
  [PdfElement.spacer 1 (3 / 10 * inch),
   PdfElement.paragraph "Data Quality Assessment" PdfStyle.customHeading,
   PdfElement.table (pdfQualityRows data_quality),
   PdfElement.spacer 1 (3 / 10 * inch)] ++
  pdfOtherInsightBlocks insights ++
  [PdfElement.pageBreak,
   PdfElement.paragraph "Column Statistics Summary" PdfStyle.customHeading] ++
  pdfColumnStatBlocks column_stats ++
  [PdfElement.pageBreak,
   PdfElement.paragraph "Visual Analysis" PdfStyle.customHeading] ++
  visualizations.flatMap pdfVizBlock

/-- Errors raised by the two report renderers. -/
inductive RenderError where
  | templateFilterError
  | buildError
deriving DecidableEq

/-- Whether `doc.build` can realize an element: drawing a lazy `Image`
opens its file, and an unloadable file raises there. -/
def elementImageLoadable (loadable : String → Bool) : PdfElement → Bool :=
  fun e =>
    match e with
    | PdfElement.image p _ _ => loadable p
    | _ => true

/-- The function `generate_pdf_report` (lines 31-198).  `doc.build`
(line 193) opens every lazy `Image` while drawing; if any image file
cannot be loaded it raises, the handler at lines 196-198 logs an error
and re-raises, and the call aborts returning nothing.  Only when every
image loads does the call return the report path
(`REPORT_DIR / analysis_id / report_<id>.pdf`) with the document
elements. -/
def generate_pdf_report (analysisId now : String) (dataset_info : DatasetInfo)
    (column_stats : List ColumnStat) (correlations : Option Correlations)
    (outliers : List OutlierReport) (data_quality : DataQuality)
    (insights : List LLMInsight) (visualizations : List VisualizationData)
    (loadable : String → Bool) : Except RenderError (String × List PdfElement) :=
  let elements := generatePdfElements analysisId now dataset_info column_stats
    correlations outliers data_quality insights visualizations
  if elements.all (elementImageLoadable loadable) then
    Except.ok ("reports/" ++ analysisId ++ "/report_" ++ analysisId ++ ".pdf",
      elements)
  else Except.error RenderError.buildError

/-- The insight section headings the paginated document renders (the
heading-style paragraphs of the insight region, lines 111-156). -/
def headingsOf (es : List PdfElement) : List String :=
  es.filterMap (fun e =>
    match e with
    | PdfElement.paragraph t PdfStyle.customHeading => some t
    | _ => none)

/-- The ordered insight section headings of the paginated document. -/
def pdfInsightSectionHeadings (insights : List LLMInsight) : List String :=
  headingsOf (pdfExecSummaryBlock insights ++ pdfOtherInsightBlocks insights)

/-! ### `generate_html_report` (`report_generator.py` lines 200-460)

The template applies the Jinja filters `format_number` and `basename`,
but the code only passes callables of those names as `render` keyword
arguments (lines 451-452) — context variables, never entries of
`environment.filters`, which is where Jinja resolves `|name`.  The call
therefore raises (Jinja 2.x: `TemplateAssertionError` at `Template()`,
line 430; Jinja 3.x: `TemplateRuntimeError` at the first `format_number`
use during `render`, line 444) before the file write at line 456: no
markup artifact is ever produced.  The only per-insight computation that
does run before the failed render (under Jinja 3.x) is the
`formatted_insights` construction of lines 433-441, modelled below. -/

/-- The filter names the template text applies with `|`:
`format_number` (template lines 358, 387, 389, 391), `format`
(lines 362, 390, 392), `safe` (line 369), `basename` (lines 401, 414),
`selectattr` and `list` (line 407). -/
def templateAppliedFilters : List String :=
  ["format_number", "format", "safe", "basename", "selectattr", "list"]

/-- The Jinja built-in filters among those the template references
(`format`, `safe`, `selectattr`, `list` are built in; `format_number` and
`basename` are not, and `render` keyword arguments are never added to the
filter registry). -/
def jinjaBuiltinFilters : List String := ["format", "safe", "selectattr", "list"]

/-- The function `generate_html_report` (lines 200-460).  Jinja resolves
every applied `|name` in `environment.filters`; `format_number` and
`basename` are only passed as `render` kwargs (lines 451-452) and are
absent from the registry, so the call raises before writing the file —
under Jinja 2.x at `Template()` (line 430), under 3.x during `render`
(line 444).  The success branch, reachable only if every applied filter
were registered, would write and return
`REPORT_DIR / analysis_id / report_<id>.html`; for this template it is
dead code. -/
def generate_html_report (analysisId now : String)
    (dataset_info : DatasetInfo) (column_stats : List ColumnStat)
    (correlations : Option Correlations) (outliers : List OutlierReport)
    (data_quality : DataQuality) (insights : List LLMInsight)
    (visualizations : List VisualizationData) : Except RenderError String :=
  if templateAppliedFilters.all (fun f => jinjaBuiltinFilters.contains f) then
    Except.ok ("reports/" ++ analysisId ++ "/report_" ++ analysisId ++ ".html")
  else Except.error RenderError.templateFilterError

/-! ## Theorems -/

/-- The `context_parts` list decomposes around the per-column section. -/
theorem contextParts_decomp (di : DatasetInfo) (cs : List ColumnStat)
    (corr : Option Correlations) (outl : List OutlierReport)
    (clus : Option Clustering) (dq : DataQuality) :
    contextParts di cs corr outl clus dq =
      contextOverview di dq ++
      ((cs.take 10).flatMap columnStatLines ++ contextTail corr outl clus) := by
  simp [contextParts, contextOverview, contextTail, List.append_assoc]

/-- C2: a backend response parsing as a JSON object yields, on either
provider path, exactly the 5 fixed-order `Insight` records with
confidences high, high, medium, high, medium; a key absent from the
object yields an insight with empty content that is still included. -/
theorem strict_path_c2 (fields : List (String × String)) (raw : String) :
    generate_insights "anthropic" raw (some (JValue.jobj fields)) =
      Except.ok (strictParseInsights fields) ∧
    generate_insights "openai" raw (some (JValue.jobj fields)) =
      Except.ok (strictParseInsights fields) ∧
    (strictParseInsights fields).map LLMInsight.sectionName =
      ["Executive Summary", "Data Quality Assessment", "Key Patterns & Trends",
       "Actionable Recommendations", "Technical Notes"] ∧
    (strictParseInsights fields).map LLMInsight.confidence =
      ["high", "high", "medium", "high", "medium"] ∧
    (strictParseInsights fields).length = 5 ∧
    (strictParseInsights fields).map LLMInsight.content =
      insightKeys.map (jsonGetD fields) ∧
    (∀ k, fields.find? (fun kv => kv.1 == k) = none → jsonGetD fields k = "") := by
  refine ⟨rfl, rfl, rfl, rfl, rfl, rfl, ?_⟩
  intro k hk
  simp [jsonGetD, hk]

/-- C2 witness: a concrete object missing four of the five keys still
produces all five insights, the missing ones with empty content. -/
theorem strict_path_c2_witness :
    generate_insights "anthropic" "resp" (some (JValue.jobj [("executive_summary", "A")])) =
      Except.ok (strictParseInsights [("executive_summary", "A")]) ∧
    (strictParseInsights [("executive_summary", "A")]).map LLMInsight.content =
      ["A", "", "", "", ""] := by
  have h := strict_path_c2 [("executive_summary", "A")] "resp"
  exact ⟨h.1, by decide⟩

/-- C4: the fallback parser is reached exactly when the anthropic path's
response fails JSON parsing; the openai path has no fallback and a parse
failure there propagates as a backend error. -/
theorem fallback_asymmetry_c4 (raw : String) :
    generate_with_claude raw none = Except.ok (fallback_parse_insights raw) ∧
    generate_with_openai none = Except.error PipelineError.backendError ∧
    (∀ fields, generate_with_claude raw (some (JValue.jobj fields)) =
      Except.ok (strictParseInsights fields)) ∧
    generate_insights "anthropic" raw none =
      Except.ok (fallback_parse_insights raw) ∧
    generate_insights "openai" raw none =
      Except.error PipelineError.backendError :=
  ⟨rfl, rfl, fun _ => rfl, rfl, rfl⟩

/-- C9: an anthropic-path response that parses as JSON but is not a JSON
object (array, string, number, boolean or null) produces neither an
insight list nor a fallback parse: the error propagates to the caller. -/
theorem nonobject_json_error_c9 (raw : String) (v : JValue)
    (h : ∀ fields, v ≠ JValue.jobj fields) :
    generate_with_claude raw (some v) = Except.error PipelineError.backendError ∧
    generate_insights "anthropic" raw (some v) =
      Except.error PipelineError.backendError := by
  cases v with
  | jobj fields => exact absurd rfl (h fields)
  | jnull => exact ⟨rfl, rfl⟩
  | jbool b => exact ⟨rfl, rfl⟩
  | jnum q => exact ⟨rfl, rfl⟩
  | jstr s => exact ⟨rfl, rfl⟩
  | jarr elems => exact ⟨rfl, rfl⟩

/-- C9 witness: a concrete JSON array and a bare JSON string both error. -/
theorem nonobject_json_error_c9_witness :
    generate_insights "anthropic" "resp" (some (JValue.jarr [])) =
      Except.error PipelineError.backendError ∧
    generate_insights "anthropic" "resp" (some (JValue.jstr "hello")) =
      Except.error PipelineError.backendError :=
  ⟨(nonobject_json_error_c9 "resp" (JValue.jarr []) (fun _ h => JValue.noConfusion h)).2,
   (nonobject_json_error_c9 "resp" (JValue.jstr "hello") (fun _ h => JValue.noConfusion h)).2⟩

/-- C5 (code bug): the claimed second artifact never exists — for every
input `generate_html_report` fails on the unregistered `format_number` and
`basename` filters before writing anything, while the paginated table does
render its header row plus six metric rows.  The metric parity the spec
states is the evident intent (the template's rows and the passed lambdas
apply the very formats the paginated table uses), but the code never
renders them. -/
theorem quality_metrics_c5_code_bug (analysisId now : String)
    (di : DatasetInfo) (cs : List ColumnStat) (corr : Option Correlations)
    (outl : List OutlierReport) (dq : DataQuality)
    (insights : List LLMInsight) (vizs : List VisualizationData) :
    generate_html_report analysisId now di cs corr outl dq insights vizs =
      Except.error RenderError.templateFilterError ∧
    (pdfQualityRows dq).length = 7 ∧
    ((pdfQualityRows dq).drop 1).map (fun r => r.headD "") =
      ["Total Rows", "Total Columns", "Missing Cells", "Completeness",
       "Duplicate Rows", "Memory Usage"] :=
  ⟨rfl, rfl, rfl⟩

/-- C7: the digest depends only on the first 10 column statistics — the
whole digest is unchanged when later columns are dropped — and the
blocks of exactly those 10 columns appear, in input order, as a
contiguous segment of the `context_parts` list. -/
theorem summarizer_first_ten_c7 (di : DatasetInfo) (cs : List ColumnStat)
    (corr : Option Correlations) (outl : List OutlierReport)
    (clus : Option Clustering) (dq : DataQuality) (h : 10 ≤ cs.length) :
    contextParts di cs corr outl clus dq =
      contextParts di (cs.take 10) corr outl clus dq ∧
    prepare_analysis_context di cs corr outl clus dq =
      prepare_analysis_context di (cs.take 10) corr outl clus dq ∧
    (∃ pre post, contextParts di cs corr outl clus dq =
      pre ++ ((cs.take 10).flatMap columnStatLines ++ post)) ∧
    (cs.take 10).length = 10 := by
  have h1 : contextParts di cs corr outl clus dq =
      contextParts di (cs.take 10) corr outl clus dq := by
    simp [contextParts, List.take_take]
  refine ⟨h1, ?_, ?_, ?_⟩
  · simp [prepare_analysis_context, h1]
  · exact ⟨contextOverview di dq, contextTail corr outl clus,
      contextParts_decomp di cs corr outl clus dq⟩
  · simp [List.length_take]
    omega

/-- C7 witness: a concrete bundle with 12 columns has the same digest as
its first 10 columns. -/
theorem summarizer_first_ten_c7_witness :
    prepare_analysis_context ⟨100, 12, "1 MB"⟩
        (List.replicate 12 ⟨"c", "int64", 0, 3, none⟩) none [] none
        ⟨100, 12, 0, 100, 0, 1⟩ =
      prepare_analysis_context ⟨100, 12, "1 MB"⟩
        ((List.replicate 12 ⟨"c", "int64", 0, 3, none⟩).take 10) none [] none
        ⟨100, 12, 0, 100, 0, 1⟩ :=
  (summarizer_first_ten_c7 ⟨100, 12, "1 MB"⟩ _ none [] none
    ⟨100, 12, 0, 100, 0, 1⟩ (by simp)).2.1

/-- Heading extraction distributes over concatenation. -/
theorem headingsOf_append (a b : List PdfElement) :
    headingsOf (a ++ b) = headingsOf a ++ headingsOf b :=
  List.filterMap_append a b _

/-- Heading extraction keeps a heading-style paragraph. -/
theorem headingsOf_cons_heading (t : String) (es : List PdfElement) :
    headingsOf (PdfElement.paragraph t PdfStyle.customHeading :: es) =
      t :: headingsOf es := rfl

/-- Heading extraction skips a body-style paragraph. -/
theorem headingsOf_cons_body (t : String) (es : List PdfElement) :
    headingsOf (PdfElement.paragraph t PdfStyle.customBody :: es) =
      headingsOf es := rfl

/-- Body paragraphs carry no section headings. -/
theorem headingsOf_bodyParagraphs (c : String) :
    headingsOf (bodyParagraphs c) = [] := by
  unfold bodyParagraphs
  generalize splitSep "\n\n".data c.data = l
  induction l with
  | nil => rfl
  | cons x xs ih =>
    by_cases hx : pyStrip x = [] <;>
      simp [List.filterMap_cons, hx, headingsOf_cons_body] <;>
      simpa using ih

/-- The non`-Executive Summary` insight loop renders exactly the sections
of the non`-Executive Summary` insights, in list order. -/
theorem headingsOf_otherBlocks (insights : List LLMInsight) :
    headingsOf (pdfOtherInsightBlocks insights) =
      (insights.filter
        (fun i => !(i.sectionName == "Executive Summary"))).map
        LLMInsight.sectionName := by
  induction insights with
  | nil => rfl
  | cons i rest ih =>
    have hstep : pdfOtherInsightBlocks (i :: rest) =
        (if i.sectionName == "Executive Summary" then [] else
          PdfElement.paragraph i.sectionName PdfStyle.customHeading ::
          (bodyParagraphs i.content ++ [PdfElement.spacer 1 (2 / 10 * inch)])) ++
        pdfOtherInsightBlocks rest := by
      simp [pdfOtherInsightBlocks, List.flatMap_cons]
    rw [hstep, List.filter_cons]
    by_cases hi : i.sectionName = "Executive Summary"
    · have hb : (i.sectionName == "Executive Summary") = true := by simp [hi]
      rw [if_pos hb, List.nil_append, ih, hb]
      rfl
    · have hb : (i.sectionName == "Executive Summary") = false := by simp [hi]
      rw [if_neg (by simp [hb]), headingsOf_append, headingsOf_cons_heading,
        headingsOf_append, headingsOf_bodyParagraphs, ih, hb]
      rfl

/-- The heading sequence of the `Executive Summary` region (lines 111-119)
is the single fixed heading, whatever the insight list. -/
theorem headingsOf_execBlock (insights : List LLMInsight) :
    headingsOf (pdfExecSummaryBlock insights) = ["Executive Summary"] := by
  unfold pdfExecSummaryBlock
  cases hf : insights.find? (fun i => i.sectionName == "Executive Summary") with
  | none => rfl
  | some i =>
    rw [headingsOf_cons_heading, headingsOf_bodyParagraphs]

/-- C1 counterexample: at a concrete insight list the paginated document
presents two insight section headings while `generate_html_report`
produces no markup document at all — it fails on the unregistered Jinja
filters before writing anything — so the two renderers do not present the
same set of insight sections, nor any common order. -/
theorem insight_sections_c1_counterexample :
    generate_html_report "a1" "t" ⟨0, 0, "0 MB"⟩ [] none []
        ⟨0, 0, 0, 0, 0, 0⟩
        [⟨"Data Quality Assessment", "All good.", "medium"⟩] [] =
      Except.error RenderError.templateFilterError ∧
    pdfInsightSectionHeadings
        [⟨"Data Quality Assessment", "All good.", "medium"⟩] =
      ["Executive Summary", "Data Quality Assessment"] := by
  constructor
  · rfl
  · rw [pdfInsightSectionHeadings, headingsOf_append, headingsOf_execBlock,
      headingsOf_otherBlocks]
    rfl

/-- C1 (amended): for every input the paginated renderer presents the
fixed `Executive Summary` heading followed by the non`-Executive Summary`
insight sections in list order, while the markup renderer presents no
sections at all: `generate_html_report` fails on the unregistered
`format_number`/`basename` filters before writing an artifact.  The
cross-format parity the claim states therefore never holds — there is
never a second artifact to agree with.  (Even under the template's
intended substitution semantics the claim would still fail, since the
paginated renderer emits the `Executive Summary` heading whether or not
such an insight exists and pulls it to the front.) -/
theorem insight_sections_c1_amended (analysisId now : String)
    (di : DatasetInfo) (cs : List ColumnStat) (corr : Option Correlations)
    (outl : List OutlierReport) (dq : DataQuality)
    (insights : List LLMInsight) (vizs : List VisualizationData) :
    generate_html_report analysisId now di cs corr outl dq insights vizs =
      Except.error RenderError.templateFilterError ∧
    pdfInsightSectionHeadings insights =
      "Executive Summary" ::
        (insights.filter
          (fun i => !(i.sectionName == "Executive Summary"))).map
          LLMInsight.sectionName := by
  constructor
  · rfl
  · rw [pdfInsightSectionHeadings, headingsOf_append, headingsOf_execBlock,
      headingsOf_otherBlocks]
    rfl

/-- The splitter `splitNlAux` passes over a newline-free prefix. -/
theorem splitNlAux_no_nl (a ys : List Char) (h : ∀ c ∈ a, c ≠ '\n') :
    splitNlAux (a ++ ys) = (a ++ (splitNlAux ys).1, (splitNlAux ys).2) := by
  induction a with
  | nil => simp
  | cons c t ih =>
    have hc : c ≠ '\n' := h c (List.mem_cons_self c t)
    rw [List.cons_append, splitNlAux]
    simp [ih (fun x hx => h x (List.mem_cons_of_mem c hx)), hc]

/-- Python `str.split('\n')` peels off a newline-free first line. -/
theorem splitNl_line (a ys : List Char) (h : ∀ c ∈ a, c ≠ '\n') :
    splitNl (a ++ '\n' :: ys) = a :: splitNl ys := by
  unfold splitNl
  rw [splitNlAux_no_nl a _ h]
  have hnl : splitNlAux ('\n' :: ys) =
      ([], (splitNlAux ys).1 :: (splitNlAux ys).2) := by
    rw [splitNlAux]
    simp
  rw [hnl]
  simp

/-- Python `str.split('\n')` of a newline-free text is that single line. -/
theorem splitNl_single (a : List Char) (h : ∀ c ∈ a, c ≠ '\n') :
    splitNl a = [a] := by
  have haux := splitNlAux_no_nl a [] h
  rw [List.append_nil] at haux
  unfold splitNl
  rw [haux]
  simp [splitNlAux]

/-- The function `dropWhile` does not touch a list that starts with a non-matching
element, even when more is appended. -/
theorem dropWhile_append_left (p : Char → Bool) (x ys : List Char)
    (hx : x.dropWhile p = x) (hne : x ≠ []) :
    (x ++ ys).dropWhile p = x ++ ys := by
  cases x with
  | nil => exact absurd rfl hne
  | cons a t =>
    have hpa : p a = false := by
      by_contra hcon
      have hp : p a = true := by
        revert hcon
        cases p a <;> simp
      rw [List.dropWhile_cons, if_pos hp] at hx
      have hlen := (List.dropWhile_sublist (l := t) p).length_le
      rw [hx] at hlen
      simp at hlen
    rw [List.cons_append, List.dropWhile_cons, hpa]
    simp

/-- A list untouched by `dropWhile` on both ends is untouched by
`str.strip()`. -/
theorem pyStrip_eq_self (x : List Char)
    (h1 : x.dropWhile Char.isWhitespace = x)
    (h2 : x.reverse.dropWhile Char.isWhitespace = x.reverse) :
    pyStrip x = x := by
  unfold pyStrip
  rw [h1, h2, List.reverse_reverse]

/-- Python `str.strip()` removes exactly the trailing separator space the
accumulator loop appends. -/
theorem pyStrip_append_space (x : List Char)
    (h1 : x.dropWhile Char.isWhitespace = x)
    (h2 : x.reverse.dropWhile Char.isWhitespace = x.reverse)
    (hne : x ≠ []) :
    pyStrip (x ++ [' ']) = x := by
  unfold pyStrip
  rw [dropWhile_append_left _ x [' '] h1 hne, List.reverse_append]
  have hsp : Char.isWhitespace ' ' = true := by decide
  have hdrop : ([' '].reverse ++ x.reverse).dropWhile Char.isWhitespace =
      x.reverse := by
    have : ([' '].reverse : List Char) = [' '] := rfl
    rw [this, List.singleton_append, List.dropWhile_cons, if_pos hsp, h2]
  rw [hdrop, List.reverse_reverse]

/-- A nonempty list is not `isEmpty`. -/
theorem isEmpty_false_of_ne_nil (x : List Char) (h : x ≠ []) :
    x.isEmpty = false := by
  cases x with
  | nil => exact absurd rfl h
  | cons a t => rfl

/-- A line with no header match (line 255-258) in particular contains no
display name (line 261). -/
theorem anyDisplay_eq_false_of_findHeader_none (l : List Char)
    (h : findHeader l = none) : anyDisplayName l = false := by
  unfold findHeader at h
  rw [List.find?_eq_none] at h
  unfold anyDisplayName
  rw [List.any_eq_false]
  intro s hs
  have hm := h s hs
  intro hcon
  apply hm
  unfold headerMatch
  rw [hcon]
  rfl

/-- A headerless line before any header is fully discarded
(`current_section` is still `None`). -/
theorem stepLine_skip_line (acc : String → List Char) (raw : List Char)
    (h : findHeader (pyStrip raw) = none) :
    stepLine ⟨none, acc⟩ raw = ⟨none, acc⟩ := by
  simp [stepLine, h]

/-- A line containing a display name never adds to any accumulator. -/
theorem stepLine_display_keeps_acc (st : FallbackState) (raw : List Char)
    (h : anyDisplayName (pyStrip raw) = true) :
    (stepLine st raw).acc = st.acc := by
  cases hf : findHeader (pyStrip raw) with
  | none => cases hc : st.currentSection <;> simp [stepLine, h, hf, hc]
  | some s => simp [stepLine, h, hf]

/-- A line with a header match selects that section. -/
theorem stepLine_sets_section (st : FallbackState) (raw : List Char)
    (s : String) (h : findHeader (pyStrip raw) = some s) :
    (stepLine st raw).currentSection = some s := by
  simp [stepLine, h]

/-- A headerless non-blank line is appended (space-terminated) to the
current section's accumulator. -/
theorem stepLine_append_content (cur : String) (acc : String → List Char)
    (raw : List Char) (hh : findHeader (pyStrip raw) = none)
    (hne : pyStrip raw ≠ []) :
    stepLine ⟨some cur, acc⟩ raw =
      ⟨some cur,
       fun s => if s = cur then acc s ++ pyStrip raw ++ [' '] else acc s⟩ := by
  have hd : anyDisplayName (pyStrip raw) = false :=
    anyDisplay_eq_false_of_findHeader_none _ hh
  have hie : (pyStrip raw).isEmpty = false := isEmpty_false_of_ne_nil _ hne
  simp [stepLine, hh, hd, hie]

/-- With no header anywhere the loop never leaves its initial state. -/
theorem foldl_stepLine_no_header (lines : List (List Char))
    (h : ∀ l ∈ lines, findHeader (pyStrip l) = none)
    (acc : String → List Char) :
    lines.foldl stepLine ⟨none, acc⟩ = ⟨none, acc⟩ := by
  induction lines with
  | nil => rfl
  | cons l rest ih =>
    rw [List.foldl_cons, stepLine_skip_line acc l (h l (List.mem_cons_self l rest))]
    exact ih (fun x hx => h x (List.mem_cons_of_mem l hx))

/-- C8 (code bug): the claimed graceful skip does not happen.  reportlab's
lazy `Image` raises nothing at construction, so for an unloadable raster
image the per-visualization block still contributes all four flowables
(name, description, image, spacer) and the line-189 warning never fires;
the failure surfaces inside `doc.build`, whose handler re-raises
(lines 196-198), so `generate_pdf_report` aborts and returns nothing
instead of omitting the visualization and returning a path.  The spec's
skip semantics is the evident intent of the `try`/`except` around the
appends, defeated by the deferred image open. -/
theorem viz_abort_c8_code_bug :
    pdfVizBlock ⟨"Chart", "A chart", "viz/chart.png", "png"⟩ =
      [PdfElement.paragraph "Chart" PdfStyle.heading3,
       PdfElement.paragraph "A chart" PdfStyle.customBody,
       PdfElement.image "viz/chart.png" (65 / 10 * inch) (45 / 10 * inch),
       PdfElement.spacer 1 (2 / 10 * inch)] ∧
    generate_pdf_report "a1" "t" ⟨0, 0, "0 MB"⟩ [] none [] ⟨0, 0, 0, 0, 0, 0⟩
        [] [⟨"Chart", "A chart", "viz/chart.png", "png"⟩] (fun _ => false) =
      Except.error RenderError.buildError :=
  ⟨rfl, rfl⟩

/-- C10 counterexample: a line that matches a section name only in its
underscore form is treated as a header but IS appended to that section's
content — the append guard (line 261) checks only the display names, so
"never appended to any section's content" fails. -/
theorem fallback_headers_c10_counterexample :
    fallback_parse_insights "EXECUTIVE SUMMARY\nsee EXECUTIVE_SUMMARY note" =
      [⟨"Executive Summary", "see EXECUTIVE_SUMMARY note", "medium"⟩] := by
  decide

/-- C10 (amended): a line containing a section display name
(case-insensitively) is never appended to any accumulator; a line with any
header match (display or underscore form) selects that section; but a line
matching only the underscore form is still appended to the section it just
selected.  Content lines before the first detected header are discarded
entirely: with `current_section` still unset a headerless line changes
nothing, and a text with no header at all parses to the empty insight
list. -/
theorem fallback_headers_c10_amended :
    (∀ (st : FallbackState) (raw : List Char),
      anyDisplayName (pyStrip raw) = true → (stepLine st raw).acc = st.acc) ∧
    (∀ (st : FallbackState) (raw : List Char) (s : String),
      findHeader (pyStrip raw) = some s →
      (stepLine st raw).currentSection = some s) ∧
    (∀ (acc : String → List Char) (raw : List Char),
      findHeader (pyStrip raw) = none →
      stepLine ⟨none, acc⟩ raw = ⟨none, acc⟩) ∧
    (∀ text : String,
      (∀ l ∈ splitNl text.data, findHeader (pyStrip l) = none) →
      fallback_parse_insights text = []) := by
  refine ⟨stepLine_display_keeps_acc, stepLine_sets_section,
    stepLine_skip_line, ?_⟩
  intro text h
  simp only [fallback_parse_insights]
  rw [foldl_stepLine_no_header (splitNl text.data) h]
  rfl

/-- C10 witness: a display-name header line leaves the accumulators
untouched and selects its section; a text with no headers parses to
nothing. -/
theorem fallback_headers_c10_witness :
    (stepLine ⟨none, fun _ => []⟩ "EXECUTIVE SUMMARY".data).acc =
      (fun _ => ([] : List Char)) ∧
    (stepLine ⟨none, fun _ => []⟩ "EXECUTIVE SUMMARY".data).currentSection =
      some "Executive Summary" ∧
    fallback_parse_insights "just content\nno headers at all" = [] :=
  ⟨fallback_headers_c10_amended.1 ⟨none, fun _ => []⟩ _ (by decide),
   fallback_headers_c10_amended.2.1 ⟨none, fun _ => []⟩ _ _ (by decide),
   fallback_headers_c10_amended.2.2.2 "just content\nno headers at all"
     (by decide)⟩

/-- C3: a non-JSON response made of the line `EXECUTIVE SUMMARY`, two
content lines, the line `DATA QUALITY ASSESSMENT`, and one content line
(content lines: non-blank, already stripped, no newline, matching no
section header) parses to exactly two insights: `Executive Summary` with
the space-joined concatenation of the two content lines and
`Data Quality Assessment` with the single content line, both confidence
`medium`; the three empty sections are absent. -/
theorem fallback_two_sections_c3 (l1 l2 l3 : List Char)
    (h1nl : ∀ c ∈ l1, c ≠ '\n') (h2nl : ∀ c ∈ l2, c ≠ '\n')
    (h3nl : ∀ c ∈ l3, c ≠ '\n')
    (h1a : l1.dropWhile Char.isWhitespace = l1)
    (h1b : l1.reverse.dropWhile Char.isWhitespace = l1.reverse)
    (h2a : l2.dropWhile Char.isWhitespace = l2)
    (h2b : l2.reverse.dropWhile Char.isWhitespace = l2.reverse)
    (h3a : l3.dropWhile Char.isWhitespace = l3)
    (h3b : l3.reverse.dropWhile Char.isWhitespace = l3.reverse)
    (h1ne : l1 ≠ []) (h2ne : l2 ≠ []) (h3ne : l3 ≠ [])
    (h1h : findHeader l1 = none) (h2h : findHeader l2 = none)
    (h3h : findHeader l3 = none) :
    fallback_parse_insights
      (String.mk ("EXECUTIVE SUMMARY".data ++
        ('\n' :: (l1 ++ ('\n' :: (l2 ++ ('\n' ::
          ("DATA QUALITY ASSESSMENT".data ++ ('\n' :: l3))))))))) =
      [⟨"Executive Summary", String.mk (l1 ++ [' '] ++ l2), "medium"⟩,
       ⟨"Data Quality Assessment", String.mk l3, "medium"⟩] := by
  have s1 : pyStrip l1 = l1 := pyStrip_eq_self _ h1a h1b
  have s2 : pyStrip l2 = l2 := pyStrip_eq_self _ h2a h2b
  have s3 : pyStrip l3 = l3 := pyStrip_eq_self _ h3a h3b
  have hlines : splitNl (String.mk ("EXECUTIVE SUMMARY".data ++
      ('\n' :: (l1 ++ ('\n' :: (l2 ++ ('\n' ::
        ("DATA QUALITY ASSESSMENT".data ++ ('\n' :: l3))))))))).data =
      ["EXECUTIVE SUMMARY".data, l1, l2, "DATA QUALITY ASSESSMENT".data, l3] := by
    show splitNl ("EXECUTIVE SUMMARY".data ++
      ('\n' :: (l1 ++ ('\n' :: (l2 ++ ('\n' ::
        ("DATA QUALITY ASSESSMENT".data ++ ('\n' :: l3)))))))) = _
    rw [splitNl_line _ _ (by decide), splitNl_line _ _ h1nl,
      splitNl_line _ _ h2nl, splitNl_line _ _ (by decide),
      splitNl_single _ h3nl]
  have e1 : stepLine ⟨none, fun _ => []⟩ "EXECUTIVE SUMMARY".data =
      ⟨some "Executive Summary", fun _ => []⟩ := by
    have hf : findHeader (pyStrip "EXECUTIVE SUMMARY".data) =
        some "Executive Summary" := by decide
    have hd : anyDisplayName (pyStrip "EXECUTIVE SUMMARY".data) = true := by
      decide
    simp [stepLine, hf, hd]
  have e2 : stepLine ⟨some "Executive Summary", fun _ => []⟩ l1 =
      ⟨some "Executive Summary",
       fun s => if s = "Executive Summary" then l1 ++ [' '] else []⟩ := by
    rw [stepLine_append_content _ _ _ (by rw [s1]; exact h1h)
      (by rw [s1]; exact h1ne)]
    congr 1
    funext s
    by_cases hs : s = "Executive Summary" <;> simp [hs, s1]
  have e3 : stepLine ⟨some "Executive Summary",
      fun s => if s = "Executive Summary" then l1 ++ [' '] else []⟩ l2 =
      ⟨some "Executive Summary",
       fun s => if s = "Executive Summary" then l1 ++ [' '] ++ l2 ++ [' ']
                else []⟩ := by
    rw [stepLine_append_content _ _ _ (by rw [s2]; exact h2h)
      (by rw [s2]; exact h2ne)]
    congr 1
    funext s
    by_cases hs : s = "Executive Summary" <;>
      simp [hs, s2, List.append_assoc]
  have e4 : stepLine ⟨some "Executive Summary",
      fun s => if s = "Executive Summary" then l1 ++ [' '] ++ l2 ++ [' ']
               else []⟩ "DATA QUALITY ASSESSMENT".data =
      ⟨some "Data Quality Assessment",
       fun s => if s = "Executive Summary" then l1 ++ [' '] ++ l2 ++ [' ']
                else []⟩ := by
    have hf : findHeader (pyStrip "DATA QUALITY ASSESSMENT".data) =
        some "Data Quality Assessment" := by decide
    have hd : anyDisplayName (pyStrip "DATA QUALITY ASSESSMENT".data) =
        true := by decide
    simp [stepLine, hf, hd]
  have e5 : stepLine ⟨some "Data Quality Assessment",
      fun s => if s = "Executive Summary" then l1 ++ [' '] ++ l2 ++ [' ']
               else []⟩ l3 =
      ⟨some "Data Quality Assessment",
       fun s => if s = "Data Quality Assessment" then l3 ++ [' ']
                else if s = "Executive Summary" then
                  l1 ++ [' '] ++ l2 ++ [' ']
                else []⟩ := by
    rw [stepLine_append_content _ _ _ (by rw [s3]; exact h3h)
      (by rw [s3]; exact h3ne)]
    congr 1
    funext s
    by_cases hs : s = "Data Quality Assessment"
    · have hs2 : s ≠ "Executive Summary" := by rw [hs]; decide
      simp [hs, hs2, s3]
    · simp [hs]
  have hstripES : pyStrip (l1 ++ [' '] ++ l2 ++ [' ']) = l1 ++ [' '] ++ l2 := by
    have hfix1 : (l1 ++ [' '] ++ l2).dropWhile Char.isWhitespace =
        l1 ++ [' '] ++ l2 := by
      have := dropWhile_append_left Char.isWhitespace l1 ([' '] ++ l2) h1a h1ne
      simpa [List.append_assoc] using this
    have hfix2 : (l1 ++ [' '] ++ l2).reverse.dropWhile Char.isWhitespace =
        (l1 ++ [' '] ++ l2).reverse := by
      have hrev : (l1 ++ [' '] ++ l2).reverse =
          l2.reverse ++ ([' '] ++ l1.reverse) := by
        simp
      rw [hrev]
      exact dropWhile_append_left _ l2.reverse _ h2b (by simpa using h2ne)
    have hne12 : l1 ++ [' '] ++ l2 ≠ [] := by
      intro hcon
      exact h2ne (List.append_eq_nil.mp hcon).2
    exact pyStrip_append_space (l1 ++ [' '] ++ l2) hfix1 hfix2 hne12
  have hstripDQ : pyStrip (l3 ++ [' ']) = l3 :=
    pyStrip_append_space l3 h3a h3b h3ne
  have hstripES2 : pyStrip (l1 ++ ' ' :: (l2 ++ [' '])) = l1 ++ ' ' :: l2 := by
    simpa [List.append_assoc] using hstripES
  have hnil : pyStrip ([] : List Char) = [] := rfl
  have q1 : ¬ (("Executive Summary" : String) = "Data Quality Assessment") := by
    decide
  have q2 : ¬ (("Key Patterns & Trends" : String) = "Data Quality Assessment") := by
    decide
  have q3 : ¬ (("Key Patterns & Trends" : String) = "Executive Summary") := by
    decide
  have q4 : ¬ (("Actionable Recommendations" : String) = "Data Quality Assessment") := by
    decide
  have q5 : ¬ (("Actionable Recommendations" : String) = "Executive Summary") := by
    decide
  have q6 : ¬ (("Technical Notes" : String) = "Data Quality Assessment") := by
    decide
  have q7 : ¬ (("Technical Notes" : String) = "Executive Summary") := by
    decide
  simp only [fallback_parse_insights]
  rw [hlines, List.foldl_cons, e1, List.foldl_cons, e2, List.foldl_cons, e3,
    List.foldl_cons, e4, List.foldl_cons, e5, List.foldl_nil]
  simp only [sectionNames, List.filterMap_cons, List.filterMap_nil]
  simp [q1, q2, q3, q4, q5, q6, q7, hstripES2, hstripDQ, h3ne, hnil]

/-- C3 witness: a concrete fallback response with two executive-summary
content lines and one data-quality content line. -/
theorem fallback_two_sections_c3_witness :
    fallback_parse_insights
      (String.mk ("EXECUTIVE SUMMARY".data ++
        ('\n' :: ("The data is large.".data ++ ('\n' ::
          ("It shows trends.".data ++ ('\n' ::
            ("DATA QUALITY ASSESSMENT".data ++
              ('\n' :: "Completeness is high.".data))))))))) =
      [⟨"Executive Summary",
        String.mk ("The data is large.".data ++ [' '] ++
          "It shows trends.".data), "medium"⟩,
       ⟨"Data Quality Assessment",
        String.mk "Completeness is high.".data, "medium"⟩] :=
  fallback_two_sections_c3 "The data is large.".data "It shows trends.".data
    "Completeness is high.".data (by decide) (by decide) (by decide)
    (by decide) (by decide) (by decide) (by decide) (by decide) (by decide)
    (by decide) (by decide) (by decide) (by decide) (by decide) (by decide)

end AutoInsight
